import Mathlib

/-!
Shallow embedding of the core components of the abr-geocoder repository:
the download retry/backpressure fabric (`DownloadTransform`), the
Tokyo-23-ward town transform stage (`Tokyo23TownTranform`), the JSON output
formatter (`JsonTransform`) and the run-once action guards
(`geocodingAction` / `downloadDataset`), together with theorems checking
the specification's claims about them.
-/

namespace AbrGeocoder

/-! ### Download fabric: the retry loop of `DownloadTransform._write` -/

/-- Retry loop of `DownloadTransform._write`.  `outcomes n` tells whether the
`n`-th call to `downloader.run` resolves (`true`) or rejects (`false`).  The
source initialises `let retry = 0`, re-enters the loop while `retry < 5`,
and in the `catch` branch executes `retry--` and `params.useCache = false`.
The returned list records the `useCache` flag of each attempt actually made;
`fuel` bounds the observation window (the loop itself has no such bound). -/
def downloadLoop (outcomes : Nat → Bool) : Nat → Int → Bool → Nat → List Bool
  | 0, _, _, _ => []
  | fuel + 1, retry, useCache, n =>
    if retry < 5 then
      if outcomes n then [useCache]
      else useCache :: downloadLoop outcomes fuel (retry - 1) false (n + 1)
    else []

/-- Entry of `_write`: `params.useCache = true` and `let retry = 0` before
the loop. -/
def writeAttempts (outcomes : Nat → Bool) (fuel : Nat) : List Bool :=
  downloadLoop outcomes fuel 0 true 0

lemma downloadLoop_false (o : Nat → Bool) :
    ∀ (fuel : Nat) (retry : Int) (n : Nat) (b : Bool),
      b ∈ downloadLoop o fuel retry false n → b = false := by
  intro fuel
  induction fuel with
  | zero =>
    intro retry n b hb
    simp [downloadLoop] at hb
  | succ f ih =>
    intro retry n b hb
    simp only [downloadLoop] at hb
    split at hb
    · split at hb
      · exact List.mem_singleton.mp hb
      · rcases List.mem_cons.mp hb with hb | hb
        · exact hb
        · exact ih _ _ _ hb
    · simp at hb

lemma downloadLoop_allFail_length :
    ∀ (fuel : Nat) (retry : Int) (u : Bool) (n : Nat), retry < 5 →
      (downloadLoop (fun _ => false) fuel retry u n).length = fuel := by
  intro fuel
  induction fuel with
  | zero => intro retry u n _; rfl
  | succ f ih =>
    intro retry u n h5
    simp only [downloadLoop]
    rw [if_pos h5]
    simp only [Bool.false_eq_true, if_false, List.length_cons]
    rw [ih (retry - 1) false (n + 1) (by omega)]

/-- C1: the retry counter of `DownloadTransform._write` is decremented on
failure, so the guard `retry < 5` never becomes false: for a worker task
that rejects on every attempt, the loop performs as many attempts as the
observation window allows (`fuel` attempts for every `fuel`), instead of the
claimed cap of 5, and no `DownloadProcessError` record is ever surfaced on
that path. -/
theorem c1_retry_counter_bug :
    ∀ fuel : Nat, (writeAttempts (fun _ => false) fuel).length = fuel :=
  fun fuel => downloadLoop_allFail_length fuel 0 true 0 (by norm_num)

/-- C7: the first attempt of the `_write` retry loop runs with
`useCache = true` and every later attempt runs with `useCache = false`. -/
theorem c7_useCache (o : Nat → Bool) (fuel i : Nat)
    (h : i < (writeAttempts o fuel).length) :
    (writeAttempts o fuel).get ⟨i, h⟩ = decide (i = 0) := by
  cases fuel with
  | zero =>
    exfalso
    simp [writeAttempts, downloadLoop] at h
  | succ f =>
    have hw : writeAttempts o (f + 1) =
        if o 0 = true then [true]
        else true :: downloadLoop o f (0 - 1) false 1 := by
      show downloadLoop o (f + 1) 0 true 0 = _
      rw [downloadLoop]
      rw [if_pos (show (0 : Int) < 5 by norm_num)]
    by_cases ho : o 0 = true
    · rw [if_pos ho] at hw
      revert h
      rw [hw]
      intro h
      have h1 : i = 0 := by
        have := h
        simp only [List.length_singleton] at this
        omega
      subst h1
      rfl
    · rw [if_neg ho] at hw
      revert h
      rw [hw]
      intro h
      cases i with
      | zero => rfl
      | succ j =>
        have hc : (true :: downloadLoop o f (0 - 1) false 1).get ⟨j + 1, h⟩ =
            (downloadLoop o f (0 - 1) false 1).get ⟨j, Nat.lt_of_succ_lt_succ h⟩ := rfl
        rw [hc]
        have hm := List.get_mem (downloadLoop o f (0 - 1) false 1) j
          (Nat.lt_of_succ_lt_succ h)
        rw [downloadLoop_false o f _ _ _ hm]
        simp

/-- Closed instance of `c7_useCache`: with two failing attempts followed by a
success, the second attempt runs with `useCache = false`. -/
theorem c7_useCache_witness :
    (writeAttempts (fun n => decide (2 ≤ n)) 5).get ⟨1, by decide⟩ = decide (1 = 0) :=
  c7_useCache (fun n => decide (2 ≤ n)) 5 1 (by decide)

/-! ### Download fabric: end-of-stream sentinel of `DownloadTransform` -/

/-- Events observed by the `DownloadTransform` duplex: a `_write` call
incrementing `runningTasks`, a task completion (the `downloader.run` promise
settling with a payload or an error record, lines 98-113 of the source), and
the upstream final signal handled by `_final`. -/
inductive DlEvent
  | writeStart
  | taskDone
  | finalSig
deriving DecidableEq, Repr

/-- State of the `DownloadTransform` instance: the `receivedFinal` flag, the
`runningTasks` counter, and the number of `push(null)` calls made so far. -/
structure DlState where
  receivedFinal : Bool
  runningTasks : Nat
  nullPushes : Nat
deriving DecidableEq, Repr

/-- Initial state of a `DownloadTransform`. -/
def dlStart : DlState :=
  { receivedFinal := false, runningTasks := 0, nullPushes := 0 }

/-- One step of the `DownloadTransform` state: `_write` runs
`this.runningTasks++`; a task completion runs `this.runningTasks--`, pushes
the result, and pushes `null` exactly when
`this.runningTasks === 0 && this.receivedFinal`; `_final` sets
`this.receivedFinal = true` and does nothing else. -/
def dlStep (s : DlState) : DlEvent → DlState
  | DlEvent.writeStart => { s with runningTasks := s.runningTasks + 1 }
  | DlEvent.taskDone =>
    if s.runningTasks - 1 == 0 && s.receivedFinal then
      { s with runningTasks := s.runningTasks - 1, nullPushes := s.nullPushes + 1 }
    else
      { s with runningTasks := s.runningTasks - 1 }
  | DlEvent.finalSig => { s with receivedFinal := true }

/-- Run a trace of events from the initial state. -/
def dlRun (tr : List DlEvent) : DlState := tr.foldl dlStep dlStart

/-- Whether processing event `e` in state `s` pushes the terminal sentinel. -/
def pushesNull (s : DlState) (e : DlEvent) : Bool :=
  decide (s.nullPushes < (dlStep s e).nullPushes)

lemma dlRun_noFinal :
    ∀ (tr : List DlEvent) (s : DlState),
      (tr.foldl dlStep s).receivedFinal = false →
      s.receivedFinal = false ∧ (tr.foldl dlStep s).nullPushes = s.nullPushes := by
  intro tr
  induction tr with
  | nil => intro s h; exact ⟨h, rfl⟩
  | cons e tr ih =>
    intro s h
    rw [List.foldl_cons] at h
    obtain ⟨h1, h2⟩ := ih (dlStep s e) h
    rw [List.foldl_cons, h2]
    cases e with
    | writeStart => exact ⟨h1, rfl⟩
    | finalSig =>
      exfalso
      simp [dlStep] at h1
    | taskDone =>
      have hrf : s.receivedFinal = false := by
        simp only [dlStep] at h1
        split at h1 <;> exact h1
      refine ⟨hrf, ?_⟩
      simp [dlStep, hrf]

/-- C2 (amended): the terminal sentinel is pushed exactly at a task
completion that happens after `_final` set `receivedFinal` and that brings
`runningTasks` from 1 to 0; in particular it is never pushed while another
task is in flight, and never before `_final`.  (The converse direction of
the original claim fails: see the counterexample, where the condition holds
after `_final` yet no sentinel was pushed.) -/
theorem c2_sentinel (tr : List DlEvent) (e : DlEvent)
    (h : e = DlEvent.taskDone → 0 < (dlRun tr).runningTasks) :
    (pushesNull (dlRun tr) e = true ↔
      (e = DlEvent.taskDone ∧ (dlRun tr).receivedFinal = true ∧
        (dlRun tr).runningTasks = 1)) ∧
    ((dlRun tr).receivedFinal = false → (dlRun tr).nullPushes = 0) := by
  constructor
  · cases e with
    | writeStart => simp [pushesNull, dlStep]
    | finalSig => simp [pushesNull, dlStep]
    | taskDone =>
      have hpos : 0 < (dlRun tr).runningTasks := h rfl
      by_cases hg : ((dlRun tr).runningTasks - 1 == 0 && (dlRun tr).receivedFinal) = true
      · obtain ⟨h0, hg2⟩ :
            (dlRun tr).runningTasks - 1 = 0 ∧ (dlRun tr).receivedFinal = true := by
          simpa using hg
        constructor
        · intro _
          exact ⟨rfl, hg2, by omega⟩
        · intro _
          simp [pushesNull, dlStep, hg]
      · constructor
        · intro hp
          exfalso
          simp [pushesNull, dlStep, hg] at hp
        · rintro ⟨_, hrf, hrt⟩
          exfalso
          exact hg (by simp [hrt, hrf])
  · intro hf
    have := dlRun_noFinal tr dlStart hf
    simpa [dlStart] using this.2

/-- Closed instance of `c2_sentinel`: after one `_write` and the final
signal, the pending task's completion pushes the sentinel. -/
theorem c2_sentinel_witness :
    (pushesNull (dlRun [DlEvent.writeStart, DlEvent.finalSig]) DlEvent.taskDone = true ↔
      (DlEvent.taskDone = DlEvent.taskDone ∧
        (dlRun [DlEvent.writeStart, DlEvent.finalSig]).receivedFinal = true ∧
        (dlRun [DlEvent.writeStart, DlEvent.finalSig]).runningTasks = 1)) ∧
    ((dlRun [DlEvent.writeStart, DlEvent.finalSig]).receivedFinal = false →
      (dlRun [DlEvent.writeStart, DlEvent.finalSig]).nullPushes = 0) :=
  c2_sentinel [DlEvent.writeStart, DlEvent.finalSig] DlEvent.taskDone (by decide)

/-- C2 counterexample: if the last task completes before `_final` is called,
the state afterwards satisfies `receivedFinal ∧ runningTasks = 0`, yet no
sentinel has been pushed (and `_final` itself never pushes): the claimed
"if" direction of the biconditional fails on the code. -/
theorem c2_counterexample :
    (dlRun [DlEvent.writeStart, DlEvent.taskDone, DlEvent.finalSig]).receivedFinal = true ∧
    (dlRun [DlEvent.writeStart, DlEvent.taskDone, DlEvent.finalSig]).runningTasks = 0 ∧
    (dlRun [DlEvent.writeStart, DlEvent.taskDone, DlEvent.finalSig]).nullPushes = 0 := by
  decide

/-! ### Match levels and CharNode chains -/

/-- Modelled from the spec: `MatchLevel` (the file `match-level.ts` is not
part of the visible sources) is an ordinal from the space listed in the data
model, exposing `num` (the ordinal) and `str` (a display name). -/
inductive MatchLevel
  | UNKNOWN
  | PREFECTURE
  | CITY
  | MACHIAZA
  | MACHIAZA_DETAIL
  | RESIDENTIAL_BLOCK
  | RESIDENTIAL_DETAIL
  | PARCEL
deriving DecidableEq, Repr

/-- Ordinal of a match level, monotone along the listed order. -/
def MatchLevel.num : MatchLevel → Nat
  | UNKNOWN => 0
  | PREFECTURE => 1
  | CITY => 2
  | MACHIAZA => 3
  | MACHIAZA_DETAIL => 4
  | RESIDENTIAL_BLOCK => 5
  | RESIDENTIAL_DETAIL => 6
  | PARCEL => 7

/-- Display name of a match level. -/
def MatchLevel.str : MatchLevel → String
  | UNKNOWN => "unknown"
  | PREFECTURE => "prefecture"
  | CITY => "city"
  | MACHIAZA => "machiaza"
  | MACHIAZA_DETAIL => "machiaza_detail"
  | RESIDENTIAL_BLOCK => "residential_block"
  | RESIDENTIAL_DETAIL => "residential_detail"
  | PARCEL => "parcel"

/-- Modelled from the spec: a `CharNode` (the file `char-node.ts` is not part
of the visible sources) carries a character plus provenance: the original
input index, or `none` when the character was inserted by normalization. -/
structure CNode where
  char : Char
  origIndex : Option Nat
deriving DecidableEq, Repr

/-- A CharNode chain, embedded as the list of its nodes. -/
abbrev Chain := List CNode

/-! ### Normalization helpers used by `Tokyo23TownTranform` -/

/-- Modelled from the spec: the `DASH` constant of `@config/constant-values`
(not part of the visible sources), the hyphen separator that the suffix-strip
rewrite normalizes to. -/
def DASH : Char := '-'

/-- Characters of the suffix-strip character class `[番号町地丁目]`. -/
def banChars : List Char := ['番', '号', '町', '地', '丁', '目']

/-- Membership in the suffix-strip character class. -/
def isBanChar (c : Char) : Bool := banChars.contains c

/-- Drop the head of the list when its character satisfies `p` (the `X?`
optional element of the suffix-strip pattern). -/
def dropOneIf (p : Char → Bool) (getC : α → Char) : List α → List α
  | [] => []
  | b :: bs => if p (getC b) then bs else b :: bs

/-- Leftmost match of the suffix-strip pattern
`(\d+)DASH?[番号町地丁目]+の?` at the head of the list: returns the digit
group `$1` and the remainder after the whole match, or `none` when the
pattern does not match at the head. -/
def suffixMatch (getC : α → Char) : List α → Option (List α × List α)
  | [] => none
  | a :: as =>
    if (getC a).isDigit then
      match dropOneIf (· == DASH) getC (as.dropWhile fun x => (getC x).isDigit) with
      | [] => none
      | b :: bs =>
        if isBanChar (getC b) then
          some (a :: as.takeWhile (fun x => (getC x).isDigit),
            dropOneIf (· == 'の') getC (bs.dropWhile fun x => isBanChar (getC x)))
        else none
    else none

lemma dropOneIf_length_le (p : Char → Bool) (getC : α → Char) (l : List α) :
    (dropOneIf p getC l).length ≤ l.length := by
  cases l with
  | nil => simp [dropOneIf]
  | cons b bs =>
    simp only [dropOneIf]
    split
    · simp only [List.length_cons]
      omega
    · exact le_refl _

lemma suffixMatch_rest_length (getC : α → Char) (l d rest : List α)
    (h : suffixMatch getC l = some (d, rest)) : rest.length < l.length := by
  cases l with
  | nil => simp [suffixMatch] at h
  | cons a as =>
    simp only [suffixMatch] at h
    split at h
    · split at h
      · simp at h
      · rename_i b2 bs2 heq
        split at h
        · simp only [Option.some.injEq, Prod.mk.injEq] at h
          obtain ⟨-, h2⟩ := h
          have e1 : rest.length ≤ bs2.length := by
            rw [← h2]
            exact le_trans (dropOneIf_length_le _ _ _)
              ((List.dropWhile_sublist _).length_le)
          have e3 : (b2 :: bs2).length ≤
              (List.dropWhile (fun x => (getC x).isDigit) as).length := by
            rw [← heq]
            exact dropOneIf_length_le _ _ _
          have e4 : (List.dropWhile (fun x => (getC x).isDigit) as).length ≤ as.length :=
            (List.dropWhile_sublist _).length_le
          simp only [List.length_cons] at e3 ⊢
          omega
        · simp at h
    · simp at h

/-- Global replace of the suffix-strip pattern, scanning left to right as
`String.replaceAll` does: at each position either rewrite the leftmost match
to `$1` followed by `dash` and continue after it, or keep the character and
move on.  `getC` projects the character and `dash` is the replacement
element, so the same walk serves the plain-string and the CharNode variant. -/
def stripSuffixCore (getC : α → Char) (dash : α) : List α → List α
  | [] => []
  | a :: as =>
    match hm : suffixMatch getC (a :: as) with
    | some (d, rest) => d ++ dash :: stripSuffixCore getC dash rest
    | none => a :: stripSuffixCore getC dash as
termination_by l => l.length
decreasing_by
  · exact suffixMatch_rest_length getC _ _ _ hm
  · simp

/-- String form of the suffix-strip operator
(`address.replaceAll(/(\d+)DASH?[番号町地丁目]+の?/g, '$1' + DASH)`). -/
def stripSuffixStr (s : String) : String :=
  String.mk (stripSuffixCore (fun c => c) DASH s.data)

/-- CharNode form of the suffix-strip operator; the inserted dash node has no
original index. -/
def stripSuffixCN (c : Chain) : Chain :=
  stripSuffixCore CNode.char { char := DASH, origIndex := none } c

/-- Modelled from the spec: the to-hiragana operator (`to-hiragana.ts` is not
part of the visible sources) maps katakana to hiragana; other characters are
unchanged. -/
def toHiraganaChar (c : Char) : Char :=
  if 0x30A1 ≤ c.toNat ∧ c.toNat ≤ 0x30F6 then Char.ofNat (c.toNat - 0x60) else c

/-- String form of the to-hiragana operator. -/
def toHiragana (s : String) : String := String.mk (s.data.map toHiraganaChar)

/-- CharNode form of the to-hiragana operator: provenance is untouched. -/
def toHiraganaCN (c : Chain) : Chain :=
  c.map fun n => { n with char := toHiraganaChar n.char }

/-- Kanji numeral digits. -/
def kanjiDigit : Char → Option Nat
  | '〇' => some 0
  | '一' => some 1
  | '二' => some 2
  | '三' => some 3
  | '四' => some 4
  | '五' => some 5
  | '六' => some 6
  | '七' => some 7
  | '八' => some 8
  | '九' => some 9
  | _ => none

/-- Kanji positional multipliers below 万. -/
def kanjiSmallMult : Char → Option Nat
  | '十' => some 10
  | '百' => some 100
  | '千' => some 1000
  | _ => none

/-- Kanji positional multipliers 万 and 億. -/
def kanjiBigMult : Char → Option Nat
  | '万' => some 10000
  | '億' => some 100000000
  | _ => none

/-- Whether a character belongs to a kanji numeral run. -/
def isKanjiNum (c : Char) : Bool :=
  (kanjiDigit c).isSome || (kanjiSmallMult c).isSome || (kanjiBigMult c).isSome

/-- One step of the positional decomposition of a kanji numeral run, on an
accumulator `(total, section, current)`. -/
def kanjiStepFn : Nat × Nat × Nat → Char → Nat × Nat × Nat :=
  fun acc c =>
    match kanjiDigit c with
    | some d => (acc.1, acc.2.1, acc.2.2 * 10 + d)
    | none =>
      match kanjiSmallMult c with
      | some m => (acc.1, acc.2.1 + (if acc.2.2 = 0 then 1 else acc.2.2) * m, 0)
      | none =>
        match kanjiBigMult c with
        | some m =>
          (acc.1 + (if acc.2.1 + acc.2.2 = 0 then 1 else acc.2.1 + acc.2.2) * m, 0, 0)
        | none => acc

/-- Value of a kanji numeral run by positional decomposition
(e.g. 二十三 evaluates to 23). -/
def kanjiRunValue (cs : List Char) : Nat :=
  let t := cs.foldl kanjiStepFn (0, 0, 0)
  t.1 + t.2.1 + t.2.2

/-- Decimal digits of a natural number. -/
def natDigits (n : Nat) : List Char := (toString n).data

/-- Modelled from the spec: the kan-to-num operator (`kan2num.ts` is not part
of the visible sources) converts kanji numeral runs (zero through billions,
compound forms via positional decomposition) to ASCII digits; `getC`
projects the character and `mkC` builds replacement elements, so the same
walk serves the plain-string and the CharNode variant. -/
def kan2numCore (getC : α → Char) (mkC : Char → α) : List α → List α
  | [] => []
  | a :: as =>
    if isKanjiNum (getC a) then
      (natDigits (kanjiRunValue
          ((a :: as.takeWhile fun x => isKanjiNum (getC x)).map getC))).map mkC
        ++ kan2numCore getC mkC (as.dropWhile fun x => isKanjiNum (getC x))
    else a :: kan2numCore getC mkC as
termination_by l => l.length
decreasing_by
  · exact Nat.lt_succ_of_le ((List.dropWhile_sublist _).length_le)
  · simp

/-- String form of the kan-to-num operator. -/
def kan2num (s : String) : String :=
  String.mk (kan2numCore (fun c => c) (fun c => c) s.data)

/-- CharNode form of the kan-to-num operator: generated digit nodes carry no
original index. -/
def kan2numCN (c : Chain) : Chain :=
  kan2numCore CNode.char (fun ch => { char := ch, origIndex := none }) c

/-- Modelled from the spec: the jis-kanji operator (`jis-kanji.ts` is not
part of the visible sources) is a table-driven JIS-2 to JIS-1 and old-form
to new-form kanji fold; the table here carries representative entries of the
external data table. -/
def jisFoldTable : List (Char × Char) :=
  [('壹', '壱'), ('貳', '弐'), ('參', '参'), ('邊', '辺'), ('邉', '辺'),
   ('櫻', '桜'), ('廣', '広'), ('濱', '浜'), ('藝', '芸'), ('眞', '真'),
   ('來', '来'), ('瀧', '滝'), ('檜', '桧'), ('舊', '旧'), ('壽', '寿')]

/-- Fold of one character through the jis-kanji table. -/
def jisKanjiChar (c : Char) : Char :=
  match jisFoldTable.lookup c with
  | some d => d
  | none => c

/-- String form of the jis-kanji operator. -/
def jisKanji (s : String) : String := String.mk (s.data.map jisKanjiChar)

/-- CharNode form of the jis-kanji operator: provenance is untouched. -/
def jisKanjiCN (c : Chain) : Chain :=
  c.map fun n => { n with char := jisKanjiChar n.char }

/-- `Tokyo23TownTranform.normalizeStr` (source lines 137-151): to-hiragana,
then kan-to-num, then jis-kanji, then the suffix-strip rewrite. -/
def normalizeStr (address : String) : String :=
  let address := toHiragana address
  let address := kan2num address
  let address := jisKanji address
  let address := stripSuffixStr address
  address

/-- `Tokyo23TownTranform.normalizeCharNode` (source lines 153-168): the
suffix-strip rewrite first, then to-hiragana, then kan-to-num, then
jis-kanji. -/
def normalizeCharNode (address : Chain) : Chain :=
  let address := stripSuffixCN address
  let address := toHiraganaCN address
  let address := kan2numCN address
  let address := jisKanjiCN address
  address

/-- C4: `normalizeStr` applies the four operators in the order to-hiragana,
kan-to-num, jis-kanji, suffix-strip, while the provenance-preserving
CharNode variant `normalizeCharNode` applies them in the order suffix-strip,
to-hiragana, kan-to-num, jis-kanji, for every input string or chain. -/
theorem c4_normalize_order :
    (∀ s : String, normalizeStr s = stripSuffixStr (jisKanji (kan2num (toHiragana s)))) ∧
    (∀ c : Chain, normalizeCharNode c = jisKanjiCN (kan2numCN (toHiraganaCN (stripSuffixCN c)))) :=
  ⟨fun _ => rfl, fun _ => rfl⟩

/-! ### The `Query` record and the Tokyo-23-ward transform -/

/-- Modelled from the spec: the `Query` record (the file `query.ts` is not
part of the visible sources), with the fields the data model lists and the
two transforms use.  `input` is the raw line kept for output, `tempAddress`
the residual CharNode chain (`none` embeds the absent chain), coordinates
are embedded as integers (`none` embeds a missing coordinate, rendered as
numeric null), and `formatted_address` / `formatted_score` stand for the
`formatted` pair the JSON formatter reads. -/
structure Query where
  input : String
  formatted_address : String
  formatted_score : Int
  tempAddress : Option Chain
  match_level : MatchLevel
  coordinate_level : MatchLevel
  matchedCnt : Nat
  startTime : Nat
  pref_key : Option Nat
  city_key : Option Nat
  town_key : Option Nat
  rsdt_addr_flg : Int
  rep_lat : Option Int
  rep_lon : Option Int
  lg_code : Option String
  pref : Option String
  county : Option String
  city : Option String
  ward : Option String
  oaza_cho : Option String
  chome : Option String
  koaza : Option String
  machiaza_id : Option String
  block : Option String
  block_id : Option String
  rsdt_num : Option String
  rsdt_id : Option String
  rsdt_num2 : Option String
  rsdt2_id : Option String
  prc_num1 : Option String
  prc_num2 : Option String
  prc_num3 : Option String
  prc_id : Option String
deriving DecidableEq, Repr

/-- Modelled from the spec: a `TownMatchingInfo` dictionary row
(`town-info.ts` is not part of the visible sources), with the fields the
reference-store section lists. -/
structure TownMatchingInfo where
  key : String
  pref_key : Nat
  city_key : Nat
  town_key : Nat
  rsdt_addr_flg : Int
  rep_lat : Option Int
  rep_lon : Option Int
  koaza : Option String
  pref : Option String
  county : Option String
  city : Option String
  ward : Option String
  lg_code : Option String
  oaza_cho : Option String
  machiaza_id : Option String
  chome : Option String
deriving DecidableEq, Repr

/-- Modelled from the spec: one `{info, depth, unmatched}` triple returned
by `TrieAddressFinder.find` (`trie-finder.ts` is not part of the visible
sources); `info` can be empty at a corrupt terminal, `unmatched` is the
CharNode tail. -/
structure SearchResult where
  info : Option TownMatchingInfo
  depth : Nat
  unmatched : Option Chain
deriving DecidableEq, Repr

/-- The `query.copy({...})` call of `Tokyo23TownTranform._transform`
(source lines 109-129): keys and descriptive fields from the matched row,
`tempAddress` from the unmatched tail, `match_level` and `coordinate_level`
set to `MACHIAZA_DETAIL`, `matchedCnt` advanced by the match depth. -/
def mkQuery (q : Query) (r : SearchResult) (info : TownMatchingInfo) : Query :=
  { q with
    pref_key := some info.pref_key
    city_key := some info.city_key
    town_key := some info.town_key
    rsdt_addr_flg := info.rsdt_addr_flg
    tempAddress := r.unmatched
    match_level := MatchLevel.MACHIAZA_DETAIL
    coordinate_level := MatchLevel.MACHIAZA_DETAIL
    matchedCnt := q.matchedCnt + r.depth
    rep_lat := info.rep_lat
    rep_lon := info.rep_lon
    koaza := info.koaza
    pref := info.pref
    county := info.county
    city := info.city
    ward := info.ward
    lg_code := info.lg_code
    oaza_cho := info.oaza_cho
    machiaza_id := info.machiaza_id
    chome := info.chome }

/-- The `searchResults.forEach` body of `Tokyo23TownTranform._transform`
(source lines 104-130): each search result with data produces a copied
query; a result with empty `info` throws
`new Error('searchResult.info is empty')`, which aborts the whole transform
call before anything is emitted. -/
def applyResults (q : Query) : List SearchResult → Except String (List Query)
  | [] => Except.ok []
  | r :: rs =>
    match r.info with
    | none => Except.error "searchResult.info is empty"
    | some info =>
      match applyResults q rs with
      | Except.error e => Except.error e
      | Except.ok rest => Except.ok (mkQuery q r info :: rest)

/-- Per-query body of `Tokyo23TownTranform._transform` (source lines
83-131): a query with no residual address or with `match_level` at CITY or
beyond passes through; otherwise the normalized residual chain is searched
in the Tokyo-23 trie (embedded as the `find` parameter, called with
`extraChallenges: ['区','町','市','村']` and `partialMatches: true`), an
empty result set passes the query through, and hits are expanded by
`applyResults`. -/
def processQuery (find : Chain → List SearchResult) (q : Query) :
    Except String (List Query) :=
  match q.tempAddress with
  | none => Except.ok [q]
  | some chain =>
    if MatchLevel.CITY.num ≤ q.match_level.num then Except.ok [q]
    else
      if (find (normalizeCharNode chain)).isEmpty then Except.ok [q]
      else applyResults q (find (normalizeCharNode chain))

lemma processQuery_none (find : Chain → List SearchResult) (q : Query)
    (h : q.tempAddress = none) : processQuery find q = Except.ok [q] := by
  unfold processQuery
  rw [h]

lemma processQuery_some (find : Chain → List SearchResult) (q : Query)
    (chain : Chain) (h : q.tempAddress = some chain) :
    processQuery find q =
      if MatchLevel.CITY.num ≤ q.match_level.num then Except.ok [q]
      else
        if (find (normalizeCharNode chain)).isEmpty then Except.ok [q]
        else applyResults q (find (normalizeCharNode chain)) := by
  unfold processQuery
  rw [h]

/-- `Tokyo23TownTranform._transform` over a batch of queries: results are
accumulated in order and a thrown error aborts the batch. -/
def tokyo23Transform (find : Chain → List SearchResult) :
    List Query → Except String (List Query)
  | [] => Except.ok []
  | q :: qs =>
    match processQuery find q with
    | Except.error e => Except.error e
    | Except.ok l =>
      match tokyo23Transform find qs with
      | Except.error e => Except.error e
      | Except.ok ls => Except.ok (l ++ ls)

/-- Running the stage and feeding its output to the stage again. -/
def runTwice (find : Chain → List SearchResult) (qs : List Query) :
    Except String (List Query) :=
  match tokyo23Transform find qs with
  | Except.error e => Except.error e
  | Except.ok l => tokyo23Transform find l

/-- Invariant Q1 of the data model: `match_level ≥ coordinate_level`. -/
def Q1 (q : Query) : Prop := q.coordinate_level.num ≤ q.match_level.num

lemma processQuery_resolved (find : Chain → List SearchResult) (q : Query)
    (h : MatchLevel.CITY.num ≤ q.match_level.num ∨ q.tempAddress = none) :
    processQuery find q = Except.ok [q] := by
  rcases hta : q.tempAddress with - | chain
  · exact processQuery_none find q hta
  · rcases h with h | h
    · rw [processQuery_some find q chain hta, if_pos h]
    · rw [hta] at h
      simp at h

/-- C5: a query whose `match_level` is at least CITY, or whose residual
address is empty, passes through `Tokyo23TownTranform` unchanged, and
running the stage twice on such a record yields the same output as running
it once. -/
theorem c5_pass_through_idempotent (find : Chain → List SearchResult) (q : Query)
    (h : MatchLevel.CITY.num ≤ q.match_level.num ∨ q.tempAddress = none) :
    processQuery find q = Except.ok [q] ∧
    tokyo23Transform find [q] = Except.ok [q] ∧
    runTwice find [q] = tokyo23Transform find [q] := by
  have h1 := processQuery_resolved find q h
  have h2 : tokyo23Transform find [q] = Except.ok [q] := by
    simp [tokyo23Transform, h1]
  exact ⟨h1, h2, by simp [runTwice, h2]⟩

lemma applyResults_ok (q : Query) :
    ∀ (rs : List SearchResult) (out : List Query),
      applyResults q rs = Except.ok out →
      out.length = rs.length ∧
      ∀ q2 ∈ out, ∃ r ∈ rs, ∃ info, r.info = some info ∧ q2 = mkQuery q r info := by
  intro rs
  induction rs with
  | nil =>
    intro out h
    simp only [applyResults, Except.ok.injEq] at h
    subst h
    simp
  | cons r rs ih =>
    intro out h
    simp only [applyResults] at h
    rcases hi : r.info with - | info
    · rw [hi] at h
      simp at h
    · rw [hi] at h
      rcases hrec : applyResults q rs with e | rest
      · rw [hrec] at h
        simp at h
      · rw [hrec] at h
        simp only [Except.ok.injEq] at h
        subst h
        obtain ⟨hlen, hmem⟩ := ih rest hrec
        constructor
        · simp [hlen]
        · intro q2 hq2
          rcases List.mem_cons.mp hq2 with hq2 | hq2
          · exact ⟨r, List.mem_cons_self r rs, info, hi, hq2⟩
          · obtain ⟨r2, hr2, info2, hinfo2, heq2⟩ := hmem q2 hq2
            exact ⟨r2, List.mem_cons_of_mem r hr2, info2, hinfo2, heq2⟩

/-- C3 (amended): on a trie hit, `Tokyo23TownTranform` emits one record per
search result, takes the town keys from the matched row, and sets
`match_level` (and `coordinate_level`) to `MACHIAZA_DETAIL` unconditionally,
whether or not chome or koaza were part of the matched key. -/
theorem c3_machiaza_detail (find : Chain → List SearchResult) (q : Query)
    (chain : Chain) (out : List Query)
    (h1 : q.tempAddress = some chain)
    (h2 : q.match_level.num < MatchLevel.CITY.num)
    (h3 : processQuery find q = Except.ok out)
    (h4 : find (normalizeCharNode chain) ≠ []) :
    out.length = (find (normalizeCharNode chain)).length ∧
    ∀ q2 ∈ out,
      q2.match_level = MatchLevel.MACHIAZA_DETAIL ∧
      q2.coordinate_level = MatchLevel.MACHIAZA_DETAIL ∧
      ∃ r ∈ find (normalizeCharNode chain), ∃ info, r.info = some info ∧
        q2.pref_key = some info.pref_key ∧
        q2.city_key = some info.city_key ∧
        q2.town_key = some info.town_key ∧
        q2.tempAddress = r.unmatched ∧
        q2.matchedCnt = q.matchedCnt + r.depth := by
  rw [processQuery_some find q chain h1] at h3
  rw [if_neg (by omega)] at h3
  rw [if_neg (by simpa [List.isEmpty_iff] using h4)] at h3
  obtain ⟨hlen, hmem⟩ := applyResults_ok q _ out h3
  refine ⟨hlen, ?_⟩
  intro q2 hq2
  obtain ⟨r, hr, info, hinfo, heq⟩ := hmem q2 hq2
  subst heq
  exact ⟨rfl, rfl, r, hr, info, hinfo, rfl, rfl, rfl, rfl, rfl⟩

lemma processQuery_Q1 (find : Chain → List SearchResult) (q : Query)
    (out : List Query) (h : processQuery find q = Except.ok out) (hq : Q1 q) :
    ∀ q2 ∈ out, Q1 q2 := by
  rcases hta : q.tempAddress with - | chain
  · rw [processQuery_none find q hta] at h
    simp only [Except.ok.injEq] at h
    subst h
    intro q2 hq2
    rw [List.mem_singleton.mp hq2]
    exact hq
  · rw [processQuery_some find q chain hta] at h
    split at h
    · simp only [Except.ok.injEq] at h
      subst h
      intro q2 hq2
      rw [List.mem_singleton.mp hq2]
      exact hq
    · split at h
      · simp only [Except.ok.injEq] at h
        subst h
        intro q2 hq2
        rw [List.mem_singleton.mp hq2]
        exact hq
      · obtain ⟨-, hmem⟩ := applyResults_ok q _ out h
        intro q2 hq2
        obtain ⟨r, -, info, -, heq⟩ := hmem q2 hq2
        subst heq
        exact le_refl _

/-- C6: `Tokyo23TownTranform` preserves invariant Q1
(`match_level ≥ coordinate_level`): when every input query satisfies it,
every emitted query does too. -/
theorem c6_q1_preserved (find : Chain → List SearchResult) :
    ∀ (qs out : List Query), tokyo23Transform find qs = Except.ok out →
      (∀ q ∈ qs, Q1 q) → ∀ q2 ∈ out, Q1 q2 := by
  intro qs
  induction qs with
  | nil =>
    intro out h _
    simp only [tokyo23Transform, Except.ok.injEq] at h
    subst h
    intro q2 hq2
    simp at hq2
  | cons q qs ih =>
    intro out h hin
    simp only [tokyo23Transform] at h
    rcases hq : processQuery find q with e | l
    · rw [hq] at h
      simp at h
    · rw [hq] at h
      rcases hrec : tokyo23Transform find qs with e | ls
      · rw [hrec] at h
        simp at h
      · rw [hrec] at h
        simp only [Except.ok.injEq] at h
        subst h
        intro q2 hq2
        rcases List.mem_append.mp hq2 with hq2 | hq2
        · exact processQuery_Q1 find q l hq (hin q (List.mem_cons_self q qs)) q2 hq2
        · exact ih ls hrec (fun p hp => hin p (List.mem_cons_of_mem q hp)) q2 hq2

lemma applyResults_error_msg (q : Query) :
    ∀ (rs : List SearchResult) (e : String),
      applyResults q rs = Except.error e → e = "searchResult.info is empty" := by
  intro rs
  induction rs with
  | nil =>
    intro e h
    simp [applyResults] at h
  | cons r rs ih =>
    intro e h
    simp only [applyResults] at h
    rcases hi : r.info with - | info
    · rw [hi] at h
      simp only [Except.error.injEq] at h
      exact h.symm
    · rw [hi] at h
      rcases hrec : applyResults q rs with e2 | rest
      · rw [hrec] at h
        simp only [Except.error.injEq] at h
        subst h
        exact ih e2 hrec
      · rw [hrec] at h
        simp at h

lemma applyResults_has_none (q : Query) :
    ∀ (rs : List SearchResult), (∃ r ∈ rs, r.info = none) →
      applyResults q rs = Except.error "searchResult.info is empty" := by
  intro rs
  induction rs with
  | nil =>
    intro h
    simp at h
  | cons r rs ih =>
    intro h
    obtain ⟨r2, hr2, hnone⟩ := h
    simp only [applyResults]
    rcases List.mem_cons.mp hr2 with heq | hmem
    · subst heq
      rw [hnone]
    · rcases hi : r.info with - | info
      · rfl
      · rw [ih ⟨r2, hmem, hnone⟩]

lemma processQuery_error_msg (find : Chain → List SearchResult) (q : Query)
    (e : String) (h : processQuery find q = Except.error e) :
    e = "searchResult.info is empty" := by
  rcases hta : q.tempAddress with - | chain
  · rw [processQuery_none find q hta] at h
    simp at h
  · rw [processQuery_some find q chain hta] at h
    split at h
    · simp at h
    · split at h
      · simp at h
      · exact applyResults_error_msg q _ e h

/-- C9: if the trie search of an eligible query returns a terminal with
empty `info`, `Tokyo23TownTranform` raises the fatal
`searchResult.info is empty` error and the batch emits nothing. -/
theorem c9_empty_info_fatal (find : Chain → List SearchResult)
    (qs : List Query) (q : Query) (chain : Chain)
    (h1 : q ∈ qs)
    (h2 : q.tempAddress = some chain)
    (h3 : q.match_level.num < MatchLevel.CITY.num)
    (h4 : ∃ r ∈ find (normalizeCharNode chain), r.info = none) :
    tokyo23Transform find qs = Except.error "searchResult.info is empty" := by
  have hq : processQuery find q = Except.error "searchResult.info is empty" := by
    rw [processQuery_some find q chain h2]
    rw [if_neg (by omega)]
    rw [if_neg (by
      obtain ⟨r, hr, -⟩ := h4
      simpa [List.isEmpty_iff] using List.ne_nil_of_mem hr)]
    exact applyResults_has_none q _ h4
  induction qs with
  | nil => simp at h1
  | cons p ps ih =>
    simp only [tokyo23Transform]
    rcases List.mem_cons.mp h1 with heq | hmem
    · subst heq
      rw [hq]
    · rcases hp : processQuery find p with e | l
      · rw [processQuery_error_msg find p e hp]
      · rw [ih hmem]

/-! ### Concrete instances for the Tokyo-23-ward transform -/

/-- A fully unresolved query, used as the base of concrete instances. -/
def baseQuery : Query :=
  { input := "", formatted_address := "", formatted_score := 0,
    tempAddress := none, match_level := MatchLevel.UNKNOWN,
    coordinate_level := MatchLevel.UNKNOWN, matchedCnt := 0, startTime := 0,
    pref_key := none, city_key := none, town_key := none, rsdt_addr_flg := 0,
    rep_lat := none, rep_lon := none, lg_code := none, pref := none,
    county := none, city := none, ward := none, oaza_cho := none,
    chome := none, koaza := none, machiaza_id := none, block := none,
    block_id := none, rsdt_num := none, rsdt_id := none, rsdt_num2 := none,
    rsdt2_id := none, prc_num1 := none, prc_num2 := none, prc_num3 := none,
    prc_id := none }

/-- A one-node residual chain. -/
def sampleChain : Chain := [{ char := '丸', origIndex := some 0 }]

/-- A town row whose key involved neither chome nor koaza. -/
def c3info : TownMatchingInfo :=
  { key := "丸の内", pref_key := 13, city_key := 131016, town_key := 770,
    rsdt_addr_flg := 1, rep_lat := some 35, rep_lon := some 139,
    koaza := none, pref := some "東京都", county := none,
    city := some "千代田区", ward := none, lg_code := some "131016",
    oaza_cho := some "丸の内", machiaza_id := some "0001000", chome := none }

/-- A trie hit on the row above. -/
def c3result : SearchResult := { info := some c3info, depth := 3, unmatched := none }

/-- A trie returning exactly that hit. -/
def c3find : Chain → List SearchResult := fun _ => [c3result]

/-- An unresolved query with a residual chain. -/
def c3query : Query := { baseQuery with tempAddress := some sampleChain }

/-- The record the transform emits for `c3query` under `c3find`. -/
def c3output : Query := mkQuery c3query c3result c3info

/-- C3 counterexample: on a matched row without chome and koaza the code
still sets `match_level = MACHIAZA_DETAIL`, never the claimed `MACHIAZA`. -/
theorem c3_counterexample :
    processQuery c3find c3query = Except.ok [c3output] ∧
    c3output.chome = none ∧ c3output.koaza = none ∧
    c3output.match_level = MatchLevel.MACHIAZA_DETAIL ∧
    c3output.match_level ≠ MatchLevel.MACHIAZA :=
  ⟨rfl, rfl, rfl, rfl, by decide⟩

/-- Closed instance of `c3_machiaza_detail` at the concrete hit. -/
theorem c3_machiaza_detail_witness :
    [c3output].length = (c3find (normalizeCharNode sampleChain)).length ∧
    ∀ q2 ∈ [c3output],
      q2.match_level = MatchLevel.MACHIAZA_DETAIL ∧
      q2.coordinate_level = MatchLevel.MACHIAZA_DETAIL ∧
      ∃ r ∈ c3find (normalizeCharNode sampleChain), ∃ info, r.info = some info ∧
        q2.pref_key = some info.pref_key ∧
        q2.city_key = some info.city_key ∧
        q2.town_key = some info.town_key ∧
        q2.tempAddress = r.unmatched ∧
        q2.matchedCnt = c3query.matchedCnt + r.depth :=
  c3_machiaza_detail c3find c3query sampleChain [c3output] rfl (by decide) rfl (by decide)

/-- A trie with no entries. -/
def emptyFind : Chain → List SearchResult := fun _ => []

/-- A query already resolved at CITY level. -/
def c5query : Query :=
  { baseQuery with match_level := MatchLevel.CITY, coordinate_level := MatchLevel.CITY }

/-- Closed instance of `c5_pass_through_idempotent` at a CITY-level query. -/
theorem c5_pass_through_idempotent_witness :
    processQuery emptyFind c5query = Except.ok [c5query] ∧
    tokyo23Transform emptyFind [c5query] = Except.ok [c5query] ∧
    runTwice emptyFind [c5query] = tokyo23Transform emptyFind [c5query] :=
  c5_pass_through_idempotent emptyFind c5query (Or.inl (by decide))

/-- Closed instance of `c6_q1_preserved` at a CITY-level query. -/
theorem c6_q1_preserved_witness : Q1 c5query :=
  c6_q1_preserved emptyFind [c5query] [c5query] rfl
    (fun q hq => by rw [List.mem_singleton.mp hq]; exact Nat.le_refl _)
    c5query (List.mem_singleton_self c5query)

/-- A corrupt trie hit with empty info. -/
def c9result : SearchResult := { info := none, depth := 0, unmatched := none }

/-- A trie returning only the corrupt hit. -/
def c9find : Chain → List SearchResult := fun _ => [c9result]

/-- Closed instance of `c9_empty_info_fatal` at the corrupt hit. -/
theorem c9_empty_info_fatal_witness :
    tokyo23Transform c9find [c3query] = Except.error "searchResult.info is empty" :=
  c9_empty_info_fatal c9find [c3query] c3query sampleChain
    (List.mem_singleton_self c3query) rfl (by decide)
    ⟨c9result, List.mem_singleton_self c9result, rfl⟩

/-! ### The JSON output formatter (`JsonTransform`) -/

/-- Modelled from the spec: the `BLANK_CHAR` sentinel of
`@config/constant-values` (not part of the visible sources) is the
empty-string sentinel used for missing string fields. -/
def BLANK_CHAR : String := ""

/-- Modelled from the spec: the `BREAK_AT_EOF` constant of
`@config/constant-values` (not part of the visible sources), the trailing
line break the formatter emits at end of file. -/
def BREAK_AT_EOF : String := "\n"

/-- JSON escaping of one character, as `JSON.stringify` performs on the
string fields. -/
def jsonEscapeChar (c : Char) : String :=
  if c = '"' then "\\\""
  else if c = '\\' then "\\\\"
  else if c = '\n' then "\\n"
  else if c = '\r' then "\\r"
  else if c = '\t' then "\\t"
  else String.singleton c

/-- JSON escaping of a string. -/
def jsonEscape (s : String) : String := String.join (s.data.map jsonEscapeChar)

/-- A JSON string literal. -/
def jsonStr (s : String) : String := "\"" ++ jsonEscape s ++ "\""

/-- The `value || BLANK_CHAR` fallback of the formatter: a missing string
field renders as the empty-string sentinel. -/
def optStr (o : Option String) : String := o.getD BLANK_CHAR

/-- Rendering of a possibly missing coordinate: a missing coordinate is the
JSON literal `null`. -/
def jsonOptNum : Option Int → String
  | none => "null"
  | some n => toString n

/-- Modelled from the spec: `CharNode.toOriginalString` (`char-node.ts` is
not part of the visible sources) reads back the characters that carry
original provenance. -/
def toOriginalString (c : Chain) : String :=
  String.mk (c.filterMap fun n => if n.origIndex.isSome then some n.char else none)

/-- The `result.tempAddress?.toOriginalString() || BLANK_CHAR` field. -/
def otherField (q : Query) : String :=
  match q.tempAddress with
  | none => BLANK_CHAR
  | some c => if toOriginalString c = "" then BLANK_CHAR else toOriginalString c

/-- `JSON.stringify` of the object built by `JsonTransform._transform`
(source lines 65-98, debug output off), fields in object-literal order. -/
def renderQueryJson (q : Query) : String :=
  "\x7b\"query\":\x7b\"input\":" ++ jsonStr q.input
    ++ "\x7d,\"result\":\x7b\"output\":" ++ jsonStr q.formatted_address
    ++ ",\"score\":" ++ toString q.formatted_score
    ++ ",\"other\":" ++ jsonStr (otherField q)
    ++ ",\"match_level\":" ++ jsonStr q.match_level.str
    ++ ",\"lg_code\":" ++ jsonStr (optStr q.lg_code)
    ++ ",\"pref\":" ++ jsonStr (optStr q.pref)
    ++ ",\"county\":" ++ jsonStr (optStr q.county)
    ++ ",\"city\":" ++ jsonStr (optStr q.city)
    ++ ",\"ward\":" ++ jsonStr (optStr q.ward)
    ++ ",\"machiaza_id\":" ++ jsonStr (optStr q.machiaza_id)
    ++ ",\"oaza_cho\":" ++ jsonStr (optStr q.oaza_cho)
    ++ ",\"chome\":" ++ jsonStr (optStr q.chome)
    ++ ",\"koaza\":" ++ jsonStr (optStr q.koaza)
    ++ ",\"blk_num\":" ++ jsonStr (optStr q.block)
    ++ ",\"blk_id\":" ++ jsonStr (optStr q.block_id)
    ++ ",\"rsdt_num\":" ++ jsonStr (optStr q.rsdt_num)
    ++ ",\"rsdt_id\":" ++ jsonStr (optStr q.rsdt_id)
    ++ ",\"rsdt_num2\":" ++ jsonStr (optStr q.rsdt_num2)
    ++ ",\"rsdt2_id\":" ++ jsonStr (optStr q.rsdt2_id)
    ++ ",\"rsdt_addr_flg\":" ++ toString q.rsdt_addr_flg
    ++ ",\"prc_num1\":" ++ jsonStr (optStr q.prc_num1)
    ++ ",\"prc_num2\":" ++ jsonStr (optStr q.prc_num2)
    ++ ",\"prc_num3\":" ++ jsonStr (optStr q.prc_num3)
    ++ ",\"prc_id\":" ++ jsonStr (optStr q.prc_id)
    ++ ",\"lat\":" ++ jsonOptNum q.rep_lat
    ++ ",\"lon\":" ++ jsonOptNum q.rep_lon
    ++ ",\"coordinate_level\":" ++ jsonStr q.coordinate_level.str
    ++ "\x7d\x7d"

/-- The `_transform` loop of `JsonTransform` (source lines 52-112): each call
pushes the previous buffer, then rebuilds the buffer as `'['` or `','`
followed by the rendered object, incrementing `lineNum`.  The triple is
(concatenation pushed so far, current buffer, `lineNum`). -/
def jsonRun (emitted buffer : String) (lineNum : Nat) :
    List Query → String × String × Nat
  | [] => (emitted, buffer, lineNum)
  | q :: qs =>
    jsonRun (emitted ++ buffer)
      ((if 0 < lineNum then "," else "[") ++ renderQueryJson q) (lineNum + 1) qs

/-- The `_final` emission (source lines 114-119): the remaining buffer, the
closing bracket, and the end-of-file break. -/
def jsonEmit (r : String × String × Nat) : String :=
  r.1 ++ r.2.1 ++ "]" ++ BREAK_AT_EOF

/-- Concatenation of everything `JsonTransform` pushes downstream for a
finite input sequence, from the initial state `buffer = ''`, `lineNum = 0`. -/
def jsonOutput (qs : List Query) : String := jsonEmit (jsonRun "" "" 0 qs)

/-- Comma-prefixed concatenation, the tail shape of a JSON array body. -/
def commaConcat : List String → String
  | [] => ""
  | x :: xs => "," ++ x ++ commaConcat xs

/-- Comma-separated concatenation, the body of a JSON array. -/
def joinComma : List String → String
  | [] => ""
  | [x] => x
  | x :: y :: xs => x ++ "," ++ joinComma (y :: xs)

lemma joinComma_cons (x : String) (xs : List String) :
    joinComma (x :: xs) = x ++ commaConcat xs := by
  induction xs generalizing x with
  | nil => simp [joinComma, commaConcat, String.append_empty]
  | cons y xs ih =>
    rw [joinComma, ih y, commaConcat]
    simp [String.append_assoc]

lemma jsonRun_emitted :
    ∀ (qs : List Query) (e b : String) (k : Nat), 0 < k →
      (jsonRun e b k qs).1 ++ (jsonRun e b k qs).2.1 =
        e ++ b ++ commaConcat (qs.map renderQueryJson) := by
  intro qs
  induction qs with
  | nil =>
    intro e b k _
    simp [jsonRun, commaConcat, String.append_empty]
  | cons q qs ih =>
    intro e b k hk
    rw [jsonRun]
    rw [if_pos hk]
    rw [ih (e ++ b) ("," ++ renderQueryJson q) (k + 1) (Nat.succ_pos k)]
    simp [commaConcat, String.append_assoc]

/-- C8 (amended): for every finite **non-empty** sequence of queries, the
concatenation of everything `JsonTransform` emits is the JSON array of the
rendered objects, one per input record in input order, followed by the
end-of-file line break; missing string fields render as the empty-string
sentinel and missing coordinates as the literal `null`.  (The empty
sequence violates the claim: see the counterexample.) -/
theorem c8_json_array (qs : List Query) (h : qs ≠ []) :
    jsonOutput qs = "[" ++ joinComma (qs.map renderQueryJson) ++ "]" ++ BREAK_AT_EOF ∧
    optStr none = BLANK_CHAR ∧ jsonOptNum none = "null" := by
  refine ⟨?_, rfl, rfl⟩
  rcases qs with - | ⟨q, qs⟩
  · exact absurd rfl h
  · show jsonEmit (jsonRun "" "" 0 (q :: qs)) = _
    rw [jsonRun]
    rw [if_neg (by omega)]
    unfold jsonEmit
    rw [jsonRun_emitted qs ("" ++ "") ("[" ++ renderQueryJson q) 1 (by omega)]
    rw [List.map_cons, joinComma_cons]
    simp [String.append_assoc, String.empty_append, commaConcat]

/-- Closed instance of `c8_json_array` on a one-record input. -/
theorem c8_json_array_witness :
    jsonOutput [baseQuery] =
      "[" ++ joinComma ([baseQuery].map renderQueryJson) ++ "]" ++ BREAK_AT_EOF ∧
    optStr none = BLANK_CHAR ∧ jsonOptNum none = "null" :=
  c8_json_array [baseQuery] (by decide)

/-- C8 counterexample: on the empty input sequence `_final` flushes the
never-initialised buffer, so the emitted text is `]` plus the line break and
not a JSON array: the claim fails for the empty sequence. -/
theorem c8_counterexample :
    jsonOutput [] = "]" ++ BREAK_AT_EOF ∧
    jsonOutput [] ≠
      "[" ++ joinComma (List.map renderQueryJson []) ++ "]" ++ BREAK_AT_EOF :=
  ⟨rfl, by decide⟩

/-! ### Run-once action guards (`geocodingAction` / `downloadDataset`) -/

/-- Errors thrown by the action namespaces: the `Already initialized` guard
of `init`, a failure inside `setupContainer`, and the
`Must run init() or initForTest() before involving this function` guard of
`downloadDataset.start`. -/
inductive ActionError
  | alreadyInitialized
  | setupFailed
  | mustRunInitFirst
deriving DecidableEq, Repr

/-- Module-level state of a run-once action namespace: the `initialized`
flag plus a count of `setupContainer` runs (to observe that a repeated
`init` does not re-run container setup). -/
structure ActionState where
  initialized : Bool
  setupRuns : Nat
deriving DecidableEq, Repr

/-- State before any call: `let initialized = false`. -/
def actionStart : ActionState := { initialized := false, setupRuns := 0 }

/-- The `init` function shared in shape by `geocodingAction.init` and
`downloadDataset.init`: when `initialized` is already set it throws
`Already initialized` and touches nothing; otherwise it sets the flag
**before** awaiting `setupContainer`, whose failure (`setupOk = false`,
container setup can fail on a missing data dir) propagates while the flag
stays set. -/
def initAction (s : ActionState) (setupOk : Bool) : ActionState × Option ActionError :=
  if s.initialized then (s, some ActionError.alreadyInitialized)
  else
    ({ initialized := true, setupRuns := s.setupRuns + 1 },
      if setupOk then none else some ActionError.setupFailed)

/-- The guard at the head of `downloadDataset.start`: throws when the module
flag has not been set. -/
def startGuard (s : ActionState) : Option ActionError :=
  if s.initialized then none else some ActionError.mustRunInitFirst

/-- C10 (amended): `init` is run-at-most-once — a call on an initialized
module throws `Already initialized` and does not re-run container setup;
`downloadDataset.start` throws its init-demanding error exactly when no
`init` call (successful or not) has happened, since any `init` call sets
the flag before container setup runs. -/
theorem c10_run_once (s : ActionState) (setupOk : Bool) :
    (s.initialized = true → initAction s setupOk = (s, some ActionError.alreadyInitialized)) ∧
    (s.initialized = false → startGuard s = some ActionError.mustRunInitFirst) ∧
    (initAction s setupOk).1.setupRuns =
      (if s.initialized then s.setupRuns else s.setupRuns + 1) ∧
    (initAction s setupOk).1.initialized = true := by
  by_cases h : s.initialized = true
  · refine ⟨fun _ => ?_, fun hf => ?_, ?_, ?_⟩
    · simp [initAction, h]
    · rw [h] at hf
      exact absurd hf (by simp)
    · simp [initAction, h]
    · simp [initAction, h]
  · have h0 : s.initialized = false := by simpa using h
    refine ⟨fun ht => absurd ht h, fun _ => ?_, ?_, ?_⟩
    · simp [startGuard, h0]
    · simp [initAction, h0]
    · simp [initAction, h0]

/-- Closed instance of `c10_run_once` at the fresh module state. -/
theorem c10_run_once_witness :
    (actionStart.initialized = true →
      initAction actionStart true = (actionStart, some ActionError.alreadyInitialized)) ∧
    (actionStart.initialized = false →
      startGuard actionStart = some ActionError.mustRunInitFirst) ∧
    (initAction actionStart true).1.setupRuns =
      (if actionStart.initialized then actionStart.setupRuns else actionStart.setupRuns + 1) ∧
    (initAction actionStart true).1.initialized = true :=
  c10_run_once actionStart true

/-- C10 counterexample: an `init` call whose container setup fails still
sets the module flag, so a subsequent `downloadDataset.start` does **not**
throw even though no successful init has happened: the claim's
"before any successful init" guarantee fails on the code. -/
theorem c10_counterexample :
    (initAction actionStart false).2 = some ActionError.setupFailed ∧
    (initAction actionStart false).1.initialized = true ∧
    startGuard (initAction actionStart false).1 = none := by
  decide

end AbrGeocoder
